import Mathlib

/-!
Shallow embedding of `src/main.py` (BarScreenSaver), covering the parts of the
program the specification's claims are about:

* the Ad/Timer state machine in `Visualizer.update_ui` (per consumed media
  signal: mute/unmute side effects, countdown arming and ticking);
* the smoothing pipeline in `Visualizer.update_visuals` (queue drain and
  exponential moving average update);
* the sampler tick in `AudioCapture.run` (per-session peak reads, max level,
  frame emission);
* the Spotify classification in `get_current_playing` and the polling /
  token-refresh loop body of `SpotifyMediaCapture.run`, together with the
  token persistence of `save_tokens`.

Wall-clock times and audio levels are modelled as rationals; Python's `int()`
truncation is modelled explicitly.  Network and OS effects are modelled as
explicit input data (poll outcomes, refresh outcomes, per-session read
results), and side effects (mute calls, queue puts, file writes) as explicit
output data, so every definition is executable.
-/

/-- Truncation toward zero, the behaviour of Python's `int()` on a real
number: floor for nonnegative inputs, ceiling for negative ones. -/
def pyInt (q : ℚ) : ℤ :=
  if 0 ≤ q then ⌊q⌋ else ⌈q⌉

/-- A media signal as queued by the capture thread: the tuple
`(title, artist, is_ad)` of `self.q.put((title, artist, is_ad))`. -/
structure MediaSignal where
  title : String
  artist : String
  is_advertisement : Bool
deriving DecidableEq, Repr

/-- A call to `mute_all_audio`: `mute` stands for `mute_all_audio(muted=True)`
and `unmute` for `mute_all_audio(muted=False)`. -/
inductive AudioCmd where
  | mute
  | unmute
deriving DecidableEq, Repr

/-- The values of `self.timer_last_state` other than `None`:
the strings `'ad'`, `'timer'`, `'blank'`. -/
inductive TLState where
  | ad
  | timer
  | blank
deriving DecidableEq, Repr

/-- The state of the Ad/Timer machine held on the `Visualizer` instance:
`is_ad_playing`, `timer_running`, `timer_end_time` (wall-clock seconds, or
`None`) and `timer_last_state` (`None` before the first consumed signal). -/
structure TimerState where
  is_ad_playing : Bool
  timer_running : Bool
  timer_end_time : Option ℚ
  timer_last_state : Option TLState
deriving DecidableEq, Repr

/-- The state set in `Visualizer.__init__`: `is_ad_playing = False`,
`timer_running = False`, `timer_end_time = None`, `timer_last_state = None`. -/
def initialTimerState : TimerState :=
  { is_ad_playing := false
    timer_running := false
    timer_end_time := none
    timer_last_state := none }

/-- The blank state installed by the `if self.timer_last_state is None`
initialisation block at the top of the per-signal logic. -/
def blankResetState : TimerState :=
  { is_ad_playing := false
    timer_running := false
    timer_end_time := none
    timer_last_state := some TLState.blank }

/-- The `if self.timer_last_state is None: ... initialize to blank` block. -/
def postReset (st : TimerState) : TimerState :=
  if st.timer_last_state = none then blankResetState else st

/-- The value `int(self.timer_end_time - time.time()) if self.timer_end_time
else 0` computed in the countdown branch; note Python truthiness makes a
stored end time of `0.0` behave like `None`. -/
def remainingOf (now : ℚ) (st : TimerState) : ℤ :=
  match st.timer_end_time with
  | none => 0
  | some e => if e = 0 then 0 else pyInt (e - now)

/-- One iteration of the media-queue drain loop in `Visualizer.update_ui`,
consuming a single `MediaSignal` at wall-clock time `now`: returns the new
machine state and the list of `mute_all_audio` calls issued while consuming
the signal.  Label/canvas updates are rendering and are not modelled. -/
def update_ui_signal (now : ℚ) (st0 : TimerState) (sig : MediaSignal) :
    TimerState × List AudioCmd :=
  let st := postReset st0
  if sig.is_advertisement then
    if st.is_ad_playing then
      ({ st with timer_last_state := some TLState.ad }, [])
    else
      ({ st with
          is_ad_playing := true
          timer_running := false
          timer_end_time := some (now + 30 * 60)
          timer_last_state := some TLState.ad }, [AudioCmd.mute])
  else
    if st.is_ad_playing then
      ({ st with
          is_ad_playing := false
          timer_running := true
          timer_last_state := some TLState.timer }, [AudioCmd.unmute])
    else if st.timer_running then
      if 0 < remainingOf now st then
        ({ st with timer_last_state := some TLState.timer }, [])
      else
        ({ st with
            timer_running := false
            timer_end_time := none
            timer_last_state := some TLState.blank }, [])
    else
      ({ st with timer_last_state := some TLState.blank }, [])

/-- The per-signal command lists produced by consuming a timed signal stream
from state `st` (one inner list per consumed signal, in order). -/
def outputsFrom (st : TimerState) : List (ℚ × MediaSignal) → List (List AudioCmd)
  | [] => []
  | e :: rest =>
      (update_ui_signal e.1 st e.2).2 ::
        outputsFrom (update_ui_signal e.1 st e.2).1 rest

/-- The machine state after consuming a timed signal stream from state `st`. -/
def stateFrom (st : TimerState) : List (ℚ × MediaSignal) → TimerState
  | [] => st
  | e :: rest => stateFrom (update_ui_signal e.1 st e.2).1 rest

/-- Default signal used only as the `List.getD` fallback. -/
def dummySig : ℚ × MediaSignal := (0, ⟨"", "", false⟩)

/-- The `remaining` value the countdown branch would display at wall-clock
time `now` for machine state `st` (`remaining = int(end_time - now)`). -/
def displayRemaining (now : ℚ) (st : TimerState) : ℤ :=
  remainingOf now st

/- ----------------------------------------------------------------
Smoothing pipeline (`Visualizer.update_visuals`).
---------------------------------------------------------------- -/

/-- The numpy update `self.bars = SMOOTHING * self.bars +
(1 - SMOOTHING) * self.target`, componentwise on an `N`-bar frame. -/
def smoothStep (N : ℕ) (a : ℝ) (current target : Fin N → ℝ) : Fin N → ℝ :=
  fun i => a * current i + (1 - a) * target i

/-- One tick of `Visualizer.update_visuals`: the drain loop
`while not empty: spectrum = get(); self.target = spectrum` overwrites the
target with each pending frame in turn, then the smoothing update runs.
Returns the new `(bars, target)` pair. -/
def update_visuals_tick (N : ℕ) (a : ℝ) (pending : List (Fin N → ℝ))
    (bars target : Fin N → ℝ) : (Fin N → ℝ) × (Fin N → ℝ) :=
  let newTarget := pending.foldl (fun _ s => s) target
  (smoothStep N a bars newTarget, newTarget)

/-- `n` consecutive smoothing ticks against a held (constant) target `T`. -/
def iterSmooth (N : ℕ) (a : ℝ) (T : Fin N → ℝ) : ℕ → (Fin N → ℝ) → Fin N → ℝ
  | 0, c => c
  | n + 1, c => iterSmooth N a T n (smoothStep N a c T)

/- ----------------------------------------------------------------
Level sampler (`AudioCapture.run`, one loop iteration).
---------------------------------------------------------------- -/

/-- One tick of the `AudioCapture.run` loop.  Each session read
`meter.GetPeakValue()` either succeeds (`some level`) or raises and is
skipped (`none`); the successful reads form `levels` in order.  If `levels`
is nonempty the frame is `np.random.rand(BAR_COUNT) * max(levels)` — the
random coefficients appear as the explicit argument `coeffs` — otherwise the
frame is `np.zeros(BAR_COUNT)`. -/
def audioTickFrame (N : ℕ) (coeffs : Fin N → ℚ) (sessions : List (Option ℚ)) :
    Fin N → ℚ :=
  match sessions.filterMap id with
  | [] => fun _ => 0
  | l :: ls => fun i => coeffs i * ls.foldl max l

/-- The frames put on the audio queue during one tick: the loop body performs
exactly one `self.q.put(...)` per iteration. -/
def audioTickEmits (N : ℕ) (coeffs : Fin N → ℚ) (sessions : List (Option ℚ)) :
    List (Fin N → ℚ) :=
  [audioTickFrame N coeffs sessions]

/- ----------------------------------------------------------------
Spotify API classification (`get_current_playing`) and the polling loop
body of `SpotifyMediaCapture.run`.
---------------------------------------------------------------- -/

/-- The fields of the `item` object of a currently-playing response that
`get_current_playing` inspects; a missing or empty `artists` array are both
falsy in `not item.get("artists")` and are both modelled by `[]`. -/
structure SpotifyItem where
  type : String
  name : String
  artists : List String
deriving DecidableEq, Repr

/-- A currently-playing HTTP response as seen by `get_current_playing`:
status code, the `is_playing` flag (`data.get("is_playing", False)`), and the
optional `item` (`data.get("item")`). -/
structure NowPlayingResponse where
  status : ℕ
  is_playing : Bool
  item : Option SpotifyItem
deriving DecidableEq, Repr

/-- `get_current_playing`: `.ok none` models a `return None`, `.ok (some
(title, artist))` a `return title, artist`, and `.error s` the
`r.raise_for_status()` on a non-200/204 status `s`. -/
def get_current_playing (r : NowPlayingResponse) :
    Except ℕ (Option (String × String)) :=
  if r.status = 204 then Except.ok none
  else if r.status ≠ 200 then Except.error r.status
  else if r.is_playing = false then Except.ok none
  else
    match r.item with
    | none => Except.ok none
    | some item =>
        if item.type ≠ "track" then Except.ok none
        else
          match item.artists with
          | [] => Except.ok none
          | a :: _ => Except.ok (some (item.name, a))

/-- The classification in the loop body of `SpotifyMediaCapture.run`:
`None` from `get_current_playing` becomes the ad-classified placeholder
signal, a `(title, artist)` pair becomes a music signal. -/
def classifySignal : Option (String × String) → MediaSignal
  | none => ⟨"No Title / AD", "No Playback / AD", true⟩
  | some (t, a) => ⟨t, a, false⟩

/-- Poll-and-classify: `get_current_playing` followed by the loop body's
classification (HTTP errors propagate to the `except` handler). -/
def pollSignal (r : NowPlayingResponse) : Except ℕ MediaSignal :=
  (get_current_playing r).map classifySignal

/-- The token fields the program reads and writes: `tokens["access_token"]`
and `tokens.get("refresh_token")`. -/
structure TokenSet where
  access_token : String
  refresh_token : Option String
deriving DecidableEq, Repr

/-- A token-endpoint refresh response; the code reads only
`refreshed["access_token"]` and ignores any refresh token it may carry. -/
structure RefreshResponse where
  access_token : String
  refresh_token : Option String
deriving DecidableEq, Repr

/-- The mutable state of a `SpotifyMediaCapture` thread plus the content of
the token file (`spotify_token.json`), modelling `save_tokens` as a full
overwrite of `persisted`. -/
structure CaptureState where
  access_token : String
  refresh_token : Option String
  tokens : TokenSet
  persisted : TokenSet
  last_song_checked : Option (String × String)
deriving DecidableEq, Repr

/-- The outcome of one `get_current_playing` call as the loop body sees it:
a playing track, nothing playing (`None`), an `requests.HTTPError` with a
status code, or any other exception. -/
inductive PollOutcome where
  | song (title artist : String)
  | nothingPlaying
  | httpError (status : ℕ)
  | otherError
deriving DecidableEq, Repr

/-- The outcome of a `refresh_access_token` call: a successful JSON response
or an exception (network failure, non-success status, missing token). -/
inductive RefreshOutcome where
  | ok (resp : RefreshResponse)
  | fail
deriving DecidableEq, Repr

/-- The token-refresh success path (both at lines 269-272 and 308-311 of the
source): `self.access_token = refreshed["access_token"]`,
`self.tokens["access_token"] = self.access_token`, `save_tokens(self.tokens)`. -/
def applyRefresh (st : CaptureState) (resp : RefreshResponse) : CaptureState :=
  let tok : TokenSet := { st.tokens with access_token := resp.access_token }
  { st with
      access_token := resp.access_token
      tokens := tok
      persisted := tok }

/-- The observable result of one iteration of the polling loop: the new
capture state, the signals put on the media queue during the iteration, how
many `refresh_access_token` calls were made, and whether the loop continues
(`keepRunning = false` models the `break`). -/
structure CaptureStepResult where
  state : CaptureState
  emitted : List MediaSignal
  refreshAttempts : ℕ
  keepRunning : Bool
deriving DecidableEq, Repr

/-- One iteration of the `while self.running` loop of
`SpotifyMediaCapture.run`, with the poll outcome and the (at most one)
refresh outcome supplied by the environment. -/
def captureStep (st : CaptureState) (poll : PollOutcome)
    (ref : RefreshOutcome) : CaptureStepResult :=
  match poll with
  | PollOutcome.nothingPlaying =>
      -- current_song is None: classify as ad, speculatively refresh the
      -- token (failure swallowed), push the placeholder signal, continue
      let st1 :=
        match ref with
        | RefreshOutcome.ok resp => applyRefresh st resp
        | RefreshOutcome.fail => st
      { state :=
          { st1 with
              last_song_checked := some ("No Title / AD", "No Playback / AD") }
        emitted := [⟨"No Title / AD", "No Playback / AD", true⟩]
        refreshAttempts := 1
        keepRunning := true }
  | PollOutcome.song title artist =>
      { state := { st with last_song_checked := some (title, artist) }
        emitted := [⟨title, artist, false⟩]
        refreshAttempts := 0
        keepRunning := true }
  | PollOutcome.httpError status =>
      if status = 401 then
        match ref with
        | RefreshOutcome.ok resp =>
            { state := applyRefresh st resp
              emitted := [⟨"Error", "HTTP " ++ toString status, true⟩]
              refreshAttempts := 1
              keepRunning := true }
        | RefreshOutcome.fail =>
            -- refresh failed: push the sentinel and break (the generic
            -- "Error"/"HTTP" put after the if is skipped by the break)
            { state := st
              emitted := [⟨"Token Error", "Re-Auth Required", true⟩]
              refreshAttempts := 1
              keepRunning := false }
      else
        { state := st
          emitted := [⟨"Error", "HTTP " ++ toString status, true⟩]
          refreshAttempts := 0
          keepRunning := true }
  | PollOutcome.otherError =>
      { state := st
        emitted := [⟨"Error", "Unknown Issue", true⟩]
        refreshAttempts := 0
        keepRunning := true }

/-- The spec's scenario stream: Song A (music), a blank-titled ad, Song B
(music), all consumed in one UI drain (same wall-clock time 0). -/
def c1Sigs : List (ℚ × MediaSignal) :=
  [(0, ⟨"Song A", "", false⟩), (0, ⟨"", "", true⟩), (0, ⟨"Song B", "", false⟩)]

/-- Signals used by the C2 witness: one ad signal then one music signal. -/
def c2WitSigs : List (ℚ × MediaSignal) :=
  [(0, ⟨"", "", true⟩), (0, ⟨"Song B", "", false⟩)]

/-- The stream exhibiting the C3 divergence: an advertisement detected at
wall-clock 0, playback resuming at wall-clock 300 (a 300-second episode). -/
def c3Sigs : List (ℚ × MediaSignal) :=
  [(0, ⟨"", "", true⟩), (300, ⟨"Song B", "", false⟩)]

/-- A concrete capture state used by witnesses and counterexamples. -/
def sampleState : CaptureState :=
  { access_token := "tok"
    refresh_token := some "ref"
    tokens := ⟨"tok", some "ref"⟩
    persisted := ⟨"tok", some "ref"⟩
    last_song_checked := none }

theorem outputsFrom_length (st : TimerState) (sigs : List (ℚ × MediaSignal)) :
    (outputsFrom st sigs).length = sigs.length := by
  induction sigs generalizing st with
  | nil => rfl
  | cons e rest ih => simp [outputsFrom, ih]

theorem postReset_is_ad_playing (st : TimerState)
    (h : (postReset st).is_ad_playing = true) : st.is_ad_playing = true := by
  unfold postReset at h
  split at h
  · simp [blankResetState] at h
  · exact h

theorem step_is_ad_playing (now : ℚ) (st : TimerState) (sig : MediaSignal) :
    ((update_ui_signal now st sig).1).is_ad_playing = sig.is_advertisement := by
  cases hA : sig.is_advertisement <;> cases hP : (postReset st).is_ad_playing <;>
    (simp [update_ui_signal, hA, hP]; try (split_ifs <;> simp [hP]))

theorem unmute_mem_step (now : ℚ) (st : TimerState) (sig : MediaSignal) :
    AudioCmd.unmute ∈ (update_ui_signal now st sig).2 ↔
      ((postReset st).is_ad_playing = true ∧ sig.is_advertisement = false) := by
  cases hA : sig.is_advertisement <;> cases hP : (postReset st).is_ad_playing <;>
    (simp [update_ui_signal, hA, hP]; try (split_ifs <;> simp))

theorem mute_mem_step (now : ℚ) (st : TimerState) (sig : MediaSignal) :
    AudioCmd.mute ∈ (update_ui_signal now st sig).2 ↔
      ((postReset st).is_ad_playing = false ∧ sig.is_advertisement = true) := by
  cases hA : sig.is_advertisement <;> cases hP : (postReset st).is_ad_playing <;>
    (simp [update_ui_signal, hA, hP]; try (split_ifs <;> simp))

theorem unmute_has_mute_general (sigs : List (ℚ × MediaSignal)) :
    ∀ (st : TimerState) (i : ℕ),
      AudioCmd.unmute ∈ (outputsFrom st sigs).getD i [] →
      (∃ j, j < i ∧ AudioCmd.mute ∈ (outputsFrom st sigs).getD j [] ∧
        ∀ k, j ≤ k → k < i → (sigs.getD k dummySig).2.is_advertisement = true) ∨
      (st.is_ad_playing = true ∧
        ∀ k, k < i → (sigs.getD k dummySig).2.is_advertisement = true) := by
  induction sigs with
  | nil =>
      intro st i h
      simp [outputsFrom] at h
  | cons e rest ih =>
      intro st i h
      simp only [outputsFrom] at h
      match i with
      | 0 =>
          simp only [List.getD_cons_zero] at h
          rw [unmute_mem_step] at h
          right
          refine ⟨postReset_is_ad_playing st h.1, ?_⟩
          intro k hk
          omega
      | Nat.succ i' =>
          simp only [List.getD_cons_succ] at h
          rcases ih (update_ui_signal e.1 st e.2).1 i' h with
            ⟨j, hj, hmute, hrun⟩ | ⟨hplay, hrun⟩
          · left
            refine ⟨j + 1, by omega, ?_, ?_⟩
            · simp only [outputsFrom, List.getD_cons_succ]
              exact hmute
            · intro k hk1 hk2
              match k with
              | 0 => omega
              | Nat.succ m =>
                  simp only [List.getD_cons_succ]
                  exact hrun m (by omega) (by omega)
          · have hAd : e.2.is_advertisement = true := by
              rw [← step_is_ad_playing e.1 st e.2]
              exact hplay
            by_cases hp : (postReset st).is_ad_playing = true
            · right
              refine ⟨postReset_is_ad_playing st hp, ?_⟩
              intro k hk
              match k with
              | 0 => simpa using hAd
              | Nat.succ m =>
                  simp only [List.getD_cons_succ]
                  exact hrun m (by omega)
            · left
              refine ⟨0, by omega, ?_, ?_⟩
              · simp only [outputsFrom, List.getD_cons_zero]
                rw [mute_mem_step]
                exact ⟨by simpa using hp, hAd⟩
              · intro k hk1 hk2
                match k with
                | 0 => simpa using hAd
                | Nat.succ m =>
                    simp only [List.getD_cons_succ]
                    exact hrun m (by omega)

theorem pyInt_mono {a b : ℚ} (h : a ≤ b) : pyInt a ≤ pyInt b := by
  unfold pyInt
  split_ifs with ha hb hb'
  · exact Int.floor_mono h
  · linarith
  · have h1 : ⌈a⌉ ≤ (0 : ℤ) := Int.ceil_le.mpr (by push_cast; linarith)
    have h2 : (0 : ℤ) ≤ ⌊b⌋ := Int.le_floor.mpr (by exact_mod_cast hb')
    omega
  · exact Int.ceil_mono h

theorem c1_state :
    stateFrom initialTimerState c1Sigs =
      ⟨false, true, some 1800, some TLState.timer⟩ := by
  simp [c1Sigs, stateFrom, update_ui_signal, postReset, initialTimerState,
    blankResetState]
  norm_num

/-- C1: consuming the stream Song A (music), "" (ad), Song B (music) from the
initial blank state issues exactly one mute (at signal 2) and exactly one
unmute (at signal 3); after signal 3 the machine is in the countdown state
with remaining 1800 seconds (the signals were drained at one wall-clock
instant), and the displayed remaining decreases monotonically in time, the
countdown persisting over subsequent non-ad signals while time remains. -/
theorem spec_C1_ad_cycle_scenario :
    outputsFrom initialTimerState c1Sigs =
      [[], [AudioCmd.mute], [AudioCmd.unmute]] ∧
    (stateFrom initialTimerState c1Sigs).timer_running = true ∧
    (stateFrom initialTimerState c1Sigs).timer_end_time = some 1800 ∧
    displayRemaining 0 (stateFrom initialTimerState c1Sigs) = 1800 ∧
    (∀ t1 t2 : ℚ, t1 ≤ t2 →
      displayRemaining t2 (stateFrom initialTimerState c1Sigs) ≤
        displayRemaining t1 (stateFrom initialTimerState c1Sigs)) ∧
    (∀ (t : ℚ) (s : MediaSignal), s.is_advertisement = false →
      0 < remainingOf t (stateFrom initialTimerState c1Sigs) →
      update_ui_signal t (stateFrom initialTimerState c1Sigs) s =
        (stateFrom initialTimerState c1Sigs, [])) := by
  refine ⟨?_, ?_, ?_, ?_, ?_, ?_⟩
  · simp [c1Sigs, outputsFrom, update_ui_signal, postReset, initialTimerState,
      blankResetState]
  · rw [c1_state]
  · rw [c1_state]
  · rw [c1_state]
    simp [displayRemaining, remainingOf, pyInt]
  · intro t1 t2 h
    rw [c1_state]
    simp only [displayRemaining, remainingOf]
    norm_num
    exact pyInt_mono (by linarith)
  · intro t s hs hrem
    rw [c1_state] at hrem ⊢
    simp [update_ui_signal, postReset, hs, hrem]

theorem spec_C1_ad_cycle_scenario_witness :
    ((10 : ℚ) ≤ 20 ∧
      displayRemaining 20 (stateFrom initialTimerState c1Sigs) ≤
        displayRemaining 10 (stateFrom initialTimerState c1Sigs)) ∧
    ((MediaSignal.mk "Song C" "" false).is_advertisement = false ∧
      0 < remainingOf 10 (stateFrom initialTimerState c1Sigs) ∧
      update_ui_signal 10 (stateFrom initialTimerState c1Sigs)
          ⟨"Song C", "", false⟩ =
        (stateFrom initialTimerState c1Sigs, [])) := by
  have hrem : 0 < remainingOf 10 (stateFrom initialTimerState c1Sigs) := by
    rw [c1_state]
    simp [remainingOf, pyInt]
  refine ⟨⟨by norm_num, spec_C1_ad_cycle_scenario.2.2.2.2.1 10 20 (by norm_num)⟩,
    rfl, hrem, spec_C1_ad_cycle_scenario.2.2.2.2.2 10 ⟨"Song C", "", false⟩ rfl hrem⟩

/-- C2: for every timed signal stream consumed from the initial state, any
unmute issued while consuming signal `i` is preceded by a mute issued at some
signal `j < i` such that every signal from `j` up to (excluding) `i` is an
advertisement — the mute of the same advertisement episode.  Consequently a
stream whose `is_advertisement` flags are all false issues no unmute. -/
theorem spec_C2_no_unmute_without_mute :
    (∀ (sigs : List (ℚ × MediaSignal)) (i : ℕ),
      AudioCmd.unmute ∈ (outputsFrom initialTimerState sigs).getD i [] →
      ∃ j, j < i ∧
        AudioCmd.mute ∈ (outputsFrom initialTimerState sigs).getD j [] ∧
        ∀ k, j ≤ k → k < i →
          (sigs.getD k dummySig).2.is_advertisement = true) ∧
    (∀ (sigs : List (ℚ × MediaSignal)),
      (∀ k, k < sigs.length →
        (sigs.getD k dummySig).2.is_advertisement = false) →
      ∀ i, AudioCmd.unmute ∉ (outputsFrom initialTimerState sigs).getD i []) := by
  have main : ∀ (sigs : List (ℚ × MediaSignal)) (i : ℕ),
      AudioCmd.unmute ∈ (outputsFrom initialTimerState sigs).getD i [] →
      ∃ j, j < i ∧
        AudioCmd.mute ∈ (outputsFrom initialTimerState sigs).getD j [] ∧
        ∀ k, j ≤ k → k < i →
          (sigs.getD k dummySig).2.is_advertisement = true := by
    intro sigs i h
    rcases unmute_has_mute_general sigs initialTimerState i h with
      hL | ⟨hplay, _⟩
    · exact hL
    · simp [initialTimerState] at hplay
  refine ⟨main, ?_⟩
  intro sigs hall i h
  rcases main sigs i h with ⟨j, hj, hmute, hrun⟩
  have hjlen : j < sigs.length := by
    by_contra hge
    have hdef : (outputsFrom initialTimerState sigs).getD j [] = [] := by
      apply List.getD_eq_default
      rw [outputsFrom_length]
      omega
    rw [hdef] at hmute
    simp at hmute
  have h1 := hrun j le_rfl hj
  have h2 := hall j hjlen
  rw [h1] at h2
  exact Bool.noConfusion h2

theorem spec_C2_no_unmute_without_mute_witness :
    AudioCmd.unmute ∈ (outputsFrom initialTimerState c2WitSigs).getD 1 [] ∧
    ∃ j, j < 1 ∧
      AudioCmd.mute ∈ (outputsFrom initialTimerState c2WitSigs).getD j [] ∧
      ∀ k, j ≤ k → k < 1 →
        (c2WitSigs.getD k dummySig).2.is_advertisement = true := by
  have hmem :
      AudioCmd.unmute ∈ (outputsFrom initialTimerState c2WitSigs).getD 1 [] := by
    simp [c2WitSigs, outputsFrom, update_ui_signal, postReset, initialTimerState,
      blankResetState]
  exact ⟨hmem, spec_C2_no_unmute_without_mute.1 c2WitSigs 1 hmem⟩

theorem c3_state :
    stateFrom initialTimerState c3Sigs =
      ⟨false, true, some 1800, some TLState.timer⟩ := by
  simp [c3Sigs, stateFrom, update_ui_signal, postReset, initialTimerState,
    blankResetState]
  norm_num

/-- C3: evaluation of the code at the failing input.  The countdown end time
is fixed at advertisement *detection* (`time.time() + 30 * 60` in the mute
branch), so after a 300-second advertisement episode the remaining time at
the Advertisement-to-Countdown transition is 1500 seconds, not the full 1800
the spec (and the code's own `Reset timer to 30:00` comment and `30:00`
label) promise. -/
theorem spec_C3_countdown_ticks_during_ad :
    (stateFrom initialTimerState c3Sigs).timer_end_time = some 1800 ∧
    displayRemaining 300 (stateFrom initialTimerState c3Sigs) = 1500 ∧
    (1500 : ℤ) ≠ 1800 := by
  refine ⟨by rw [c3_state], ?_, by norm_num⟩
  rw [c3_state]
  simp [displayRemaining, remainingOf, pyInt]

theorem foldl_overwrite {α : Type} (l : List α) (d : α) :
    l.foldl (fun _ s => s) d = l.getLastD d := by
  induction l generalizing d with
  | nil => rfl
  | cons x xs ih =>
      rw [List.foldl_cons, List.getLastD_cons]
      exact ih x

/-- C4: on each `update_visuals` tick the drain loop leaves the most recently
enqueued pending frame as the target (older pending frames are discarded; an
empty queue keeps the previous target), and the bars update componentwise by
`current = a * current + (1 - a) * target`; in particular, from the all-zero
state with `a = 1/2` and frames `[0, ...]` then `[1, ...]` pending, one tick
gives bars `1/2` everywhere and a second tick against `[1, ...]` gives `3/4`
everywhere. -/
theorem spec_C4_drain_recency_and_ema :
    (∀ (N : ℕ) (a : ℝ) (pending : List (Fin N → ℝ)) (bars target : Fin N → ℝ),
      (update_visuals_tick N a pending bars target).2 =
        pending.getLastD target ∧
      ∀ i, (update_visuals_tick N a pending bars target).1 i =
        a * bars i + (1 - a) * pending.getLastD target i) ∧
    (∀ N : ℕ,
      (∀ i, (update_visuals_tick N (1/2) [fun _ => 0, fun _ => 1]
          (fun _ => 0) (fun _ => 0)).1 i = 1/2) ∧
      (∀ i, (update_visuals_tick N (1/2) [fun _ => 1]
          (update_visuals_tick N (1/2) [fun _ => 0, fun _ => 1]
            (fun _ => 0) (fun _ => 0)).1
          (update_visuals_tick N (1/2) [fun _ => 0, fun _ => 1]
            (fun _ => 0) (fun _ => 0)).2).1 i = 3/4)) := by
  constructor
  · intro N a pending bars target
    constructor
    · simp [update_visuals_tick, foldl_overwrite]
    · intro i
      simp [update_visuals_tick, smoothStep, foldl_overwrite]
  · intro N
    constructor
    · intro i
      simp [update_visuals_tick, smoothStep]
      norm_num
    · intro i
      simp [update_visuals_tick, smoothStep]
      norm_num

theorem smooth_sub_eq (N : ℕ) (a : ℝ) (T : Fin N → ℝ) (n : ℕ)
    (c : Fin N → ℝ) (i : Fin N) :
    iterSmooth N a T n c i - T i = a ^ n * (c i - T i) := by
  induction n generalizing c with
  | zero => simp [iterSmooth]
  | succ n ih =>
      have hstep : iterSmooth N a T (n + 1) c =
          iterSmooth N a T n (smoothStep N a c T) := rfl
      rw [hstep, ih]
      simp only [smoothStep]
      ring

/-- C5: for every positive frame size, smoothing factor `a ∈ [0,1)` and
nonnegative constant target `T`, iterating the smoothing update from any
start converges to `T` — for every tolerance `ε > 0` there is a tick bound
after which every component stays within `ε` of `T` — and a single tick never
overshoots: each new component is at most the max of its previous value and
the target component. -/
theorem spec_C5_ema_converges_never_overshoots :
    ∀ N : ℕ, 0 < N → ∀ a : ℝ, 0 ≤ a → a < 1 →
    ∀ T : Fin N → ℝ, (∀ i, 0 ≤ T i) → ∀ c : Fin N → ℝ,
    (∀ ε : ℝ, 0 < ε → ∃ n, ∀ m, n ≤ m → ∀ i,
      |iterSmooth N a T m c i - T i| ≤ ε) ∧
    (∀ d : Fin N → ℝ, ∀ i, smoothStep N a d T i ≤ max (d i) (T i)) := by
  intro N hN a ha0 ha1 T hT c
  constructor
  · intro ε hε
    have hBpos : 0 < (∑ i, |c i - T i|) + 1 := by positivity
    obtain ⟨n, hn⟩ := exists_pow_lt_of_lt_one (div_pos hε hBpos) ha1
    refine ⟨n, fun m hm i => ?_⟩
    rw [smooth_sub_eq, abs_mul, abs_pow, abs_of_nonneg ha0]
    have h1 : |c i - T i| ≤ (∑ j, |c j - T j|) + 1 := by
      have hs : |c i - T i| ≤ ∑ j, |c j - T j| :=
        Finset.single_le_sum (f := fun j => |c j - T j|)
          (fun j _ => abs_nonneg _) (Finset.mem_univ i)
      linarith
    have h2 : a ^ m ≤ a ^ n := pow_le_pow_of_le_one ha0 (le_of_lt ha1) hm
    have h3 : a ^ m * |c i - T i| ≤ a ^ n * ((∑ j, |c j - T j|) + 1) :=
      mul_le_mul h2 h1 (abs_nonneg _) (pow_nonneg ha0 n)
    have h4 : a ^ n * ((∑ j, |c j - T j|) + 1) <
        ε / ((∑ j, |c j - T j|) + 1) * ((∑ j, |c j - T j|) + 1) :=
      mul_lt_mul_of_pos_right hn hBpos
    rw [div_mul_cancel₀ ε (ne_of_gt hBpos)] at h4
    linarith
  · intro d i
    have h1 : a * d i ≤ a * max (d i) (T i) :=
      mul_le_mul_of_nonneg_left (le_max_left _ _) ha0
    have h2 : (1 - a) * T i ≤ (1 - a) * max (d i) (T i) :=
      mul_le_mul_of_nonneg_left (le_max_right _ _) (by linarith)
    have h3 : a * max (d i) (T i) + (1 - a) * max (d i) (T i) =
        max (d i) (T i) := by ring
    simp only [smoothStep]
    linarith

theorem spec_C5_ema_converges_never_overshoots_witness :
    (∀ ε : ℝ, 0 < ε → ∃ n, ∀ m, n ≤ m → ∀ i,
      |iterSmooth 1 (1/2) (fun _ => 1) m (fun _ => 0) i - (fun _ => (1:ℝ)) i| ≤ ε) ∧
    (∀ d : Fin 1 → ℝ, ∀ i,
      smoothStep 1 (1/2) d (fun _ => 1) i ≤ max (d i) ((fun _ => (1:ℝ)) i)) :=
  spec_C5_ema_converges_never_overshoots 1 (by norm_num) (1/2) (by norm_num)
    (by norm_num) (fun _ => 1) (fun _ => by norm_num) (fun _ => 0)

/-- C6: the poll classification.  Any of: a 204 status, `is_playing` false,
a missing item, a non-track item, or an item with no artists, classifies as
the ad placeholder signal (`is_advertisement = true`); a present playing
track with at least one artist classifies as a music signal carrying the
track title and first-listed artist. -/
theorem spec_C6_poll_classification :
    ∀ r : NowPlayingResponse,
      ((r.status = 204 ∨
        (r.status = 200 ∧ (r.is_playing = false ∨ r.item = none ∨
          ∃ it, r.item = some it ∧ (it.type ≠ "track" ∨ it.artists = [])))) →
        pollSignal r =
          Except.ok ⟨"No Title / AD", "No Playback / AD", true⟩) ∧
      (∀ (it : SpotifyItem) (a : String) (rest : List String),
        r.status = 200 → r.is_playing = true → r.item = some it →
        it.type = "track" → it.artists = a :: rest →
        pollSignal r = Except.ok ⟨it.name, a, false⟩) := by
  intro r
  constructor
  · rintro (h204 | ⟨h200, hcase⟩)
    · simp [pollSignal, get_current_playing, Except.map, h204, classifySignal]
    · rcases hcase with hplay | hnone | ⟨it, hit, hbad⟩
      · simp [pollSignal, get_current_playing, Except.map, h200, hplay, classifySignal]
      · cases hp : r.is_playing <;>
          simp [pollSignal, get_current_playing, Except.map, h200, hnone, hp, classifySignal]
      · cases hp : r.is_playing
        · simp [pollSignal, get_current_playing, Except.map, h200, hp, classifySignal]
        · rcases hbad with htype | hart
          · simp [pollSignal, get_current_playing, Except.map, h200, hp, hit, htype,
              classifySignal]
          · by_cases ht : it.type = "track" <;>
              simp [pollSignal, get_current_playing, Except.map, h200, hp, hit, ht, hart,
                classifySignal]
  · intro it a rest h200 hplay hit htype hart
    simp [pollSignal, get_current_playing, Except.map, h200, hplay, hit, htype, hart,
      classifySignal]

theorem spec_C6_poll_classification_witness :
    pollSignal ⟨204, false, none⟩ =
      Except.ok ⟨"No Title / AD", "No Playback / AD", true⟩ ∧
    pollSignal ⟨200, true, some ⟨"track", "Song", ["Artist", "Feat"]⟩⟩ =
      Except.ok ⟨"Song", "Artist", false⟩ :=
  ⟨(spec_C6_poll_classification ⟨204, false, none⟩).1 (Or.inl rfl),
   (spec_C6_poll_classification
      ⟨200, true, some ⟨"track", "Song", ["Artist", "Feat"]⟩⟩).2
     ⟨"track", "Song", ["Artist", "Feat"]⟩ "Artist" ["Feat"]
     rfl rfl rfl rfl rfl⟩

/-- C7 counterexample: on a 401 with failing refresh, the sentinel signal the
code emits is `("Token Error", "Re-Auth Required", True)` — its title is not
the `"auth error"` the claim states. -/
theorem spec_C7_sentinel_title_cex :
    (captureStep sampleState (PollOutcome.httpError 401)
        RefreshOutcome.fail).emitted =
      [⟨"Token Error", "Re-Auth Required", true⟩] ∧
    ∀ s ∈ (captureStep sampleState (PollOutcome.httpError 401)
        RefreshOutcome.fail).emitted,
      s.title ≠ "auth error" := by
  have hemit : (captureStep sampleState (PollOutcome.httpError 401)
      RefreshOutcome.fail).emitted =
      [⟨"Token Error", "Re-Auth Required", true⟩] := by
    simp [captureStep]
  refine ⟨hemit, ?_⟩
  rw [hemit]
  intro s hs
  simp at hs
  rw [hs]
  decide

/-- C7 (amended): a 401 triggers exactly one refresh attempt; if the refresh
fails the loop pushes exactly the sentinel `("Token Error", "Re-Auth
Required", True)` — an ad-flagged, distinguishable error signal — and breaks,
emitting nothing further; if the refresh succeeds the loop continues. -/
theorem spec_C7_refresh_then_sentinel_and_stop :
    ∀ (st : CaptureState) (resp : RefreshResponse),
      (captureStep st (PollOutcome.httpError 401)
        RefreshOutcome.fail).refreshAttempts = 1 ∧
      (captureStep st (PollOutcome.httpError 401)
        RefreshOutcome.fail).emitted =
        [⟨"Token Error", "Re-Auth Required", true⟩] ∧
      (captureStep st (PollOutcome.httpError 401)
        RefreshOutcome.fail).keepRunning = false ∧
      (captureStep st (PollOutcome.httpError 401)
        (RefreshOutcome.ok resp)).refreshAttempts = 1 ∧
      (captureStep st (PollOutcome.httpError 401)
        (RefreshOutcome.ok resp)).keepRunning = true := by
  intro st resp
  refine ⟨?_, ?_, ?_, ?_, ?_⟩ <;> simp [captureStep]

/-- C8: after either successful refresh path (the speculative one when
nothing is playing and the 401-triggered one), the in-memory token dict
equals the persisted file content, and the stored refresh token is unchanged
— in particular it equals the prior one whenever the refresh response omits
a new one. -/
theorem spec_C8_refresh_persists_memory :
    ∀ (st : CaptureState) (resp : RefreshResponse),
      ((captureStep st (PollOutcome.httpError 401)
          (RefreshOutcome.ok resp)).state.tokens =
        (captureStep st (PollOutcome.httpError 401)
          (RefreshOutcome.ok resp)).state.persisted) ∧
      ((captureStep st PollOutcome.nothingPlaying
          (RefreshOutcome.ok resp)).state.tokens =
        (captureStep st PollOutcome.nothingPlaying
          (RefreshOutcome.ok resp)).state.persisted) ∧
      ((captureStep st PollOutcome.nothingPlaying
          (RefreshOutcome.ok resp)).state.tokens.refresh_token =
        st.tokens.refresh_token) ∧
      (resp.refresh_token = none →
        (captureStep st (PollOutcome.httpError 401)
          (RefreshOutcome.ok resp)).state.tokens.refresh_token =
          st.tokens.refresh_token) := by
  intro st resp
  refine ⟨?_, ?_, ?_, fun _ => ?_⟩ <;> simp [captureStep, applyRefresh]

theorem spec_C8_refresh_persists_memory_witness :
    (RefreshResponse.mk "new" none).refresh_token = none ∧
    (captureStep sampleState (PollOutcome.httpError 401)
      (RefreshOutcome.ok ⟨"new", none⟩)).state.tokens.refresh_token =
      sampleState.tokens.refresh_token :=
  ⟨rfl, (spec_C8_refresh_persists_memory sampleState ⟨"new", none⟩).2.2.2 rfl⟩

/-- C9: every sampler tick emits exactly one frame; with no readable session
level the frame is all-zero, with readable levels the frame is the
coefficient vector scaled by the maximum level (so a zero maximum gives an
all-zero frame); a failed per-session read (a `none`) is skipped and changes
nothing about the emission. -/
theorem spec_C9_sampler_tick_emission :
    ∀ (N : ℕ) (coeffs : Fin N → ℚ) (sessions : List (Option ℚ)),
      (audioTickEmits N coeffs sessions).length = 1 ∧
      (sessions.filterMap id = [] →
        audioTickFrame N coeffs sessions = fun _ => 0) ∧
      (∀ l ls, sessions.filterMap id = l :: ls →
        audioTickFrame N coeffs sessions = fun i => coeffs i * ls.foldl max l) ∧
      (∀ l ls, sessions.filterMap id = l :: ls → ls.foldl max l = 0 →
        audioTickFrame N coeffs sessions = fun _ => 0) ∧
      audioTickEmits N coeffs (none :: sessions) =
        audioTickEmits N coeffs sessions := by
  intro N coeffs sessions
  refine ⟨rfl, ?_, ?_, ?_, ?_⟩
  · intro h
    simp [audioTickFrame, h]
  · intro l ls h
    simp [audioTickFrame, h]
  · intro l ls h hmax
    funext i
    simp [audioTickFrame, h, hmax]
  · simp [audioTickEmits, audioTickFrame]

theorem spec_C9_sampler_tick_emission_witness :
    ([some (0 : ℚ), none].filterMap id = [(0 : ℚ)]) ∧
    ([] : List ℚ).foldl max 0 = 0 ∧
    audioTickFrame 2 (fun _ => 1) [some 0, none] = fun _ => 0 :=
  ⟨rfl, rfl,
    (spec_C9_sampler_tick_emission 2 (fun _ => 1) [some 0, none]).2.2.2.1
      0 [] rfl rfl⟩

/-- C10: whenever the poll reports nothing playing, the loop body attempts a
token refresh (even though no authorization failure occurred): on success it
overwrites the persisted token file with the updated dict; on failure the
token state is untouched; either way the ad-classified placeholder signal is
still emitted and the loop continues. -/
theorem spec_C10_speculative_refresh :
    ∀ (st : CaptureState) (resp : RefreshResponse),
      (captureStep st PollOutcome.nothingPlaying
        (RefreshOutcome.ok resp)).refreshAttempts = 1 ∧
      (captureStep st PollOutcome.nothingPlaying
        RefreshOutcome.fail).refreshAttempts = 1 ∧
      (captureStep st PollOutcome.nothingPlaying
        (RefreshOutcome.ok resp)).state.persisted =
        { st.tokens with access_token := resp.access_token } ∧
      (captureStep st PollOutcome.nothingPlaying
        RefreshOutcome.fail).state.tokens = st.tokens ∧
      (captureStep st PollOutcome.nothingPlaying
        RefreshOutcome.fail).state.persisted = st.persisted ∧
      (captureStep st PollOutcome.nothingPlaying
        (RefreshOutcome.ok resp)).emitted =
        [⟨"No Title / AD", "No Playback / AD", true⟩] ∧
      (captureStep st PollOutcome.nothingPlaying
        RefreshOutcome.fail).emitted =
        [⟨"No Title / AD", "No Playback / AD", true⟩] ∧
      (captureStep st PollOutcome.nothingPlaying
        (RefreshOutcome.ok resp)).keepRunning = true ∧
      (captureStep st PollOutcome.nothingPlaying
        RefreshOutcome.fail).keepRunning = true := by
  intro st resp
  refine ⟨?_, ?_, ?_, ?_, ?_, ?_, ?_, ?_, ?_⟩ <;>
    simp [captureStep, applyRefresh]
